import Mathlib

/-
Verification development for the InformationV3 conversation-tree backend
(src/backend/node.py and src/backend/tree.py).

Strings are modelled as `List Char` (ASCII model of Python `str`: `str.lower`
is `Char.toLower`, the whitespace of `str.strip`/`str.split` is
`Char.isWhitespace`, and the `\w` class of `re` is alphanumeric or '_').
Python attributes that a plain (non-dataclass) class instance may lack are
modelled as `Option` fields: `none` means the attribute was never assigned and
reading it raises `AttributeError`.  In the source, `Node` carries only
annotations for `message`, `response`, `response_segments` and `children`
(no assignment), so a fresh `Node()` has none of them; `parent` and `context`
have class-level defaults.  `@dataclass` is never applied, so `__post_init__`
(which would assign `_id` and call `_segment_response`) never runs.
-/

namespace IV3

/-! ### Character and list helpers (model of the Python string operations) -/

def isWS (c : Char) : Bool := c.isWhitespace

def lowerLC (s : List Char) : List Char := s.map Char.toLower

/-- Python `str.strip()`: drop whitespace from both ends. -/
def pyStrip (s : List Char) : List Char :=
  ((s.dropWhile isWS).reverse.dropWhile isWS).reverse

/-- Case-insensitive "s starts with p" (re.IGNORECASE prefix match). -/
def ciStartsWith (s p : List Char) : Bool :=
  List.isPrefixOf (lowerLC p) (lowerLC s)

/-- The `\w` class of Python `re`, restricted to ASCII. -/
def wordChar (c : Char) : Bool := c.isAlphanum || c == '_'

/-- A `\b` word boundary directly after the first `n` characters of `s`
(the character before the boundary is a word character in all our patterns). -/
def boundaryAfter (s : List Char) (n : Nat) : Bool :=
  match s.drop n with
  | [] => true
  | c :: _ => !wordChar c

/-- `^p\b` where `p` ends in a word character: anchored case-insensitive
prefix followed by a word boundary. -/
def anchoredPhrase (s p : List Char) : Bool :=
  ciStartsWith s p && boundaryAfter s p.length

/-- A match of `\bmake sure\b` starting at `s`, where `prev` is the character
just before `s` (`none` at the start of the searched string). -/
def makeSureAt (s : List Char) (prev : Option Char) : Bool :=
  (match prev with
   | none => true
   | some c => !wordChar c)
  && ciStartsWith s ("make sure".data) && boundaryAfter s ("make sure".data).length

/-- `re.search` of `\bmake sure\b` over the whole string. -/
def containsMakeSure : List Char → Option Char → Bool
  | [], _ => false
  | c :: rest, prev => makeSureAt (c :: rest) prev || containsMakeSure rest (some c)

/-! ### The Role Classifier (`Node.is_probable_system_heuristic`) -/

/-- `_system_regex.search(...)`: the alternation
`^you are\b|^you should\b|^always\b|^never\b|\bmake sure\b` (IGNORECASE).
The `^`-anchored branches can only match at the start of the string. -/
def systemRegexSearch (s : List Char) : Bool :=
  anchoredPhrase s ("you are".data) || anchoredPhrase s ("you should".data) ||
  anchoredPhrase s ("always".data) || anchoredPhrase s ("never".data) ||
  containsMakeSure s none

/-- `_META_TAGS.match(stripped)`: `^\s*(?:\[SYSTEM\]|##SYSTEM##|\(system\))`
with IGNORECASE.  Note the source's pattern has no colon after `\[SYSTEM\]`. -/
def metaTagMatch (s : List Char) : Bool :=
  let s1 := s.dropWhile isWS
  ciStartsWith s1 ("[system]".data) || ciStartsWith s1 ("##system##".data) ||
  ciStartsWith s1 ("(system)".data)

/-- `Node._IMPERATIVE_VERBS`. -/
def imperativeVerbs : List (List Char) :=
  ["ensure".data, "sanitize".data, "never".data, "always".data, "make".data,
   "avoid".data, "validate".data, "check".data, "reject".data, "allow".data,
   "deny".data, "use".data, "require".data, "respond".data]

/-- `stripped.split()[0].lower() if stripped else ""`. -/
def firstWordLower (s : List Char) : List Char :=
  lowerLC ((s.dropWhile isWS).takeWhile (fun c => !isWS c))

def endsWithQmark (s : List Char) : Bool :=
  match s.getLast? with
  | some c => c == '?'
  | none => false

/-- `stripped.lower().startswith(("hi", "hello", "hey"))`. -/
def startsGreeting (s : List Char) : Bool :=
  List.isPrefixOf ("hi".data) (lowerLC s) || List.isPrefixOf ("hello".data) (lowerLC s) ||
  List.isPrefixOf ("hey".data) (lowerLC s)

/-- `Node.is_probable_system_heuristic(text, is_before_first_user)`,
translated clause for clause from node.py lines 164-202. -/
def is_probable_system_heuristic (text : List Char) (is_before_first_user : Bool) : Bool :=
  let stripped := pyStrip text
  if systemRegexSearch (pyStrip text) then true
  else
    if metaTagMatch stripped then true
    else if imperativeVerbs.contains (firstWordLower stripped) then true
    else if (text.contains '\n' && decide (1 ≤ text.count '\n')) || text.contains ';' then true
    else if is_before_first_user then
      if !endsWithQmark stripped && !startsGreeting stripped then true else false
    else false

/-! ### The Context Builder (`Node.get_context`)

The walk up the parent chain is modelled by the list of
`(message, response)` pairs of the visited nodes, target first, root last
(exactly the nodes the `while current != None` loop reads). -/

/-- `re.split(r'(?<=[.!?]) +', msg)`: split at each maximal run of spaces
whose preceding character is '.', '!' or '?'; the spaces are consumed.
`skipping` is true while consuming such a run, `prev` is the previous
character, `acc` the current piece reversed. -/
def sentenceSplitAux : List Char → Bool → Option Char → List Char → List (List Char)
  | [], _, _, acc => [acc.reverse]
  | c :: rest, true, prev, acc =>
      if c == ' ' then sentenceSplitAux rest true prev acc
      else sentenceSplitAux rest false (some c) (c :: acc)
  | c :: rest, false, prev, acc =>
      if c == ' ' && (prev == some '.' || prev == some '!' || prev == some '?') then
        acc.reverse :: sentenceSplitAux rest true none []
      else sentenceSplitAux rest false (some c) (c :: acc)

def sentenceSplit (msg : List Char) : List (List Char) :=
  sentenceSplitAux msg false none []

inductive Role where
  | system
  | user
  | assistant
deriving DecidableEq, Repr

structure Entry where
  role : Role
  content : List Char
deriving DecidableEq, Repr

/-- The body of the `for element in context:` loop.  Every branch of the loop
body ends in `break`, so only the first element of `context` is ever
inspected: the unit is classified with `is_before_first_user = False` when
that first entry has role `user` and with `True` otherwise, and the resulting
entry is appended.  If `context` were empty the loop body would not run and
nothing would be appended (unreachable here: an assistant entry is always
appended first). -/
def classifyStep (ctx : List Entry) (u : List Char) : List Entry :=
  match ctx.head? with
  | none => ctx
  | some e =>
    ctx ++ [⟨if is_probable_system_heuristic u (!(e.role == Role.user)) then Role.system
             else Role.user, u⟩]

/-- One iteration of the `while` loop of `get_context`: append the assistant
entry, then classify the sentence units of the message in `reversed(line)`
order. -/
def gcNodeStep (ctx : List Entry) (p : List Char × List Char) : List Entry :=
  (sentenceSplit p.1).reverse.foldl classifyStep (ctx ++ [⟨Role.assistant, p.2⟩])

/-- `Node.get_context`, over the chain of `(message, response)` pairs from the
target node (head) to the root (last). -/
def get_context (chain : List (List Char × List Char)) : List Entry :=
  (chain.foldl gcNodeStep []).reverse

/-- Instrumented variant of `get_context` returning, in processing order, the
`is_before_first_user` argument passed to the classifier at each unit. -/
def get_context_flags (chain : List (List Char × List Char)) : List Bool :=
  (chain.foldl
    (fun (st : List Entry × List Bool) p =>
      (sentenceSplit p.1).reverse.foldl
        (fun st2 u =>
          match st2.1.head? with
          | none => st2
          | some e =>
            let flag := !(e.role == Role.user)
            (st2.1 ++ [⟨if is_probable_system_heuristic u flag then Role.system
                        else Role.user, u⟩], st2.2 ++ [flag]))
        (st.1 ++ [⟨Role.assistant, p.2⟩], st.2))
    ([], [])).2

/-! ### The Segmentation Engine (`Node._segment_response`) -/

/-- A `ResponseSegment`; `children` holds node ids (heap indices). -/
structure PSeg where
  content : List Char
  index : Nat
  children : List Nat
deriving DecidableEq, Repr

/-- Python `response.split('\n')`. -/
def splitNLAux : List Char → List Char → List (List Char)
  | [], acc => [acc.reverse]
  | c :: rest, acc =>
    if c == '\n' then acc.reverse :: splitNLAux rest [] else splitNLAux rest (c :: acc)

def splitNL (s : List Char) : List (List Char) := splitNLAux s []

/-- The `for idx, content in enumerate(segments)` loop. -/
def buildSegments : List (List Char) → Nat → List PSeg
  | [], _ => []
  | s :: rest, i => ⟨s, i, []⟩ :: buildSegments rest (i + 1)

/-- `Node._segment_response`: split on newlines, strip, drop falsy (empty)
lines, number the survivors from 0. -/
def segment_response (response : List Char) : List PSeg :=
  buildSegments (((splitNL response).map pyStrip).filter (fun s => !s.isEmpty)) 0

/-! ### The Entity Model and Tree operations

Python objects live in a heap `List PNode`; a node id is its heap index.
An `Option` field that is `none` models an attribute that was never
assigned (reading it raises `AttributeError`).  `parent` and the `_id`
attribute hold `Option Nat` values; `parent` always reads (class default
`None`), while `idAttr = none` means the `_id` attribute itself is absent
(`hasattr` is false) — `__post_init__`, the only code assigning `_id`,
never runs because `Node` is not a dataclass. -/

inductive PyErr where
  | attributeError
  | indexError
  | valueError
deriving DecidableEq, Repr

deriving instance DecidableEq for Except

structure PNode where
  message : Option (List Char)
  response : Option (List Char)
  response_segments : Option (List PSeg)
  children : Option (List Nat)
  parent : Option Nat
  idAttr : Option Nat
deriving DecidableEq, Repr

/-- `Node()`: a bare instance; only the class defaults are readable. -/
def pyNodeNew : PNode :=
  { message := none, response := none, response_segments := none,
    children := none, parent := none, idAttr := none }

instance : Inhabited PNode := ⟨pyNodeNew⟩

/-- `Node.add_segment_specific_child(segment_index, message, response)`
(node.py lines 110-131) acting on the node at `selfIdx` of heap `h`.
Returns the new heap and the created child's id, or the raised error with
the heap unchanged (the `raise` happens before any mutation). -/
def node_add_segment_specific_child (h : List PNode) (selfIdx : Nat)
    (segment_index : Int) (message response : List Char) :
    List PNode × Except PyErr Nat :=
  let self := h.getD selfIdx pyNodeNew
  match self.response_segments with
  | none => (h, Except.error PyErr.attributeError)
  | some segs =>
    if 0 ≤ segment_index ∧ segment_index < (segs.length : Int) then
      let k := segment_index.toNat
      let child : PNode :=
        { message := some message, response := some response,
          response_segments := none, children := none,
          parent := some selfIdx, idAttr := none }
      let childIdx := h.length
      let seg := segs.getD k ⟨[], 0, []⟩
      let segs2 := segs.set k ⟨seg.content, seg.index, seg.children ++ [childIdx]⟩
      let self2 := { self with response_segments := some segs2 }
      (h.set selfIdx self2 ++ [child], Except.ok childIdx)
    else (h, Except.error PyErr.indexError)

structure PyTree where
  nodes : List PNode
  root_node : Option Nat
  node_count : Nat
deriving DecidableEq, Repr

/-- `Tree(tree_id)`: fresh tree, no root, `node_count = 0`. -/
def pyTreeNew : PyTree := { nodes := [], root_node := none, node_count := 0 }

/-- `Tree.create_root_node(user_message, ai_response)` (tree.py lines 27-51).
Raises `ValueError` when a root already exists; otherwise builds a bare
`Node()`, assigns `message`, `response` and `parent = None`, installs it as
the root and sets `node_count = 1`. -/
def create_root_node (t : PyTree) (user_message ai_response : List Char) :
    PyTree × Except PyErr Nat :=
  match t.root_node with
  | some _ => (t, Except.error PyErr.valueError)
  | none =>
    let root : PNode :=
      { message := some user_message, response := some ai_response,
        response_segments := none, children := none,
        parent := none, idAttr := none }
    let idx := t.nodes.length
    ({ nodes := t.nodes ++ [root], root_node := some idx, node_count := 1 },
     Except.ok idx)

/-- `Tree._search_node_recursive(node, node_id)` (tree.py lines 196-208).
`fuel` bounds the recursion depth; any `fuel` at least the heap size is
enough for the acyclic heaps these operations build.  A node matches when
it has an `_id` attribute equal to `node_id`; otherwise its `children`
attribute is iterated (raising `AttributeError` when it was never
assigned). -/
def search_node_recursive (h : List PNode) : Nat → Nat → Nat → Except PyErr (Option Nat)
  | 0, _, _ => Except.ok none
  | fuel + 1, idx, node_id =>
    let node := h.getD idx pyNodeNew
    let viaKids : Except PyErr (Option Nat) :=
      match node.children with
      | none => Except.error PyErr.attributeError
      | some kids =>
        kids.foldl
          (fun acc k =>
            match acc with
            | Except.ok none => search_node_recursive h fuel k node_id
            | r => r)
          (Except.ok none)
    match node.idAttr with
    | some nid => if nid == node_id then Except.ok (some idx) else viaKids
    | none => viaKids

/-- `Tree._find_node_by_id(node_id)` (tree.py lines 181-194). -/
def find_node_by_id (t : PyTree) (node_id : Nat) : Except PyErr (Option Nat) :=
  match t.root_node with
  | none => Except.ok none
  | some r => search_node_recursive t.nodes (t.nodes.length + 1) r node_id

/-- `Tree._collect_nodes_recursive(node, nodes)` (tree.py lines 175-179):
pre-order collection through the `children` attribute only. -/
def collect_nodes_recursive (h : List PNode) : Nat → Nat → List Nat → Except PyErr (List Nat)
  | 0, _, acc => Except.ok acc
  | fuel + 1, idx, acc =>
    let node := h.getD idx pyNodeNew
    match node.children with
    | none => Except.error PyErr.attributeError
    | some kids =>
      kids.foldl
        (fun st k =>
          match st with
          | Except.ok a => collect_nodes_recursive h fuel k a
          | e => e)
        (Except.ok (acc ++ [idx]))

/-- `Tree.get_all_nodes()` (tree.py lines 161-173). -/
def get_all_nodes (t : PyTree) : Except PyErr (List Nat) :=
  match t.root_node with
  | none => Except.ok []
  | some r => collect_nodes_recursive t.nodes (t.nodes.length + 1) r []

/-- The `while current is not None: path.insert(0, current); current = current.parent`
loop of `get_conversation_path`; `fuel` bounds the walk. -/
def path_walk (h : List PNode) : Nat → Option Nat → List Nat → List Nat
  | _, none, path => path
  | 0, some _, path => path
  | fuel + 1, some cur, path =>
    path_walk h fuel (h.getD cur pyNodeNew).parent (cur :: path)

/-- `Tree.get_conversation_path(node_id)` (tree.py lines 125-147). -/
def get_conversation_path (t : PyTree) (node_id : Nat) : Except PyErr (List Nat) :=
  match find_node_by_id t node_id with
  | Except.error e => Except.error e
  | Except.ok none => Except.ok []
  | Except.ok (some target) =>
    Except.ok (path_walk t.nodes (t.nodes.length + 1) (some target) [])

/-- `Tree.add_segment_specific_child(parent_node_id, segment_index, ...)`
(tree.py lines 85-111): look the parent up by id, delegate to the node-level
operation, catch `IndexError` as a `None` result, and bump `node_count` on
success. -/
def tree_add_segment_specific_child (t : PyTree) (parent_node_id : Nat)
    (segment_index : Int) (user_message ai_response : List Char) :
    PyTree × Except PyErr (Option Nat) :=
  match find_node_by_id t parent_node_id with
  | Except.error e => (t, Except.error e)
  | Except.ok none => (t, Except.ok none)
  | Except.ok (some pidx) =>
    match node_add_segment_specific_child t.nodes pidx segment_index user_message ai_response with
    | (h2, Except.error PyErr.indexError) =>
      ({ nodes := h2, root_node := t.root_node, node_count := t.node_count }, Except.ok none)
    | (h2, Except.error e) =>
      ({ nodes := h2, root_node := t.root_node, node_count := t.node_count }, Except.error e)
    | (h2, Except.ok c) =>
      ({ nodes := h2, root_node := t.root_node, node_count := t.node_count + 1 },
       Except.ok (some c))

/-! ### Models written from the spec's words, for comparison

Each definition in this section follows the wording of a claim (not the
source) and exists only to be compared against the source-derived
definitions above. -/

/-- Rule 1 of the claims' classifier: text begins (phrase-anchored,
case-insensitive, on the trimmed text) with "you are", "you should",
"always" or "never", or contains "make sure" anywhere. -/
def specRule1 (text : List Char) : Bool :=
  anchoredPhrase (pyStrip text) ("you are".data) ||
  anchoredPhrase (pyStrip text) ("you should".data) ||
  anchoredPhrase (pyStrip text) ("always".data) ||
  anchoredPhrase (pyStrip text) ("never".data) ||
  containsMakeSure (pyStrip text) none

/-- Rule 2 as the claim states it: the text starts, after optional
whitespace, with "[SYSTEM]:" (with a colon), "##SYSTEM##" or "(system)". -/
def specRule2Claim (text : List Char) : Bool :=
  ciStartsWith (pyStrip text) ("[system]:".data) ||
  ciStartsWith (pyStrip text) ("##system##".data) ||
  ciStartsWith (pyStrip text) ("(system)".data)

/-- Rule 2 as amended to match the source: no colon is required after
"[SYSTEM]". -/
def specRule2Amended (text : List Char) : Bool :=
  ciStartsWith (pyStrip text) ("[system]".data) ||
  ciStartsWith (pyStrip text) ("##system##".data) ||
  ciStartsWith (pyStrip text) ("(system)".data)

/-- Rule 3: the first whitespace-delimited token, case-folded, is in the
fixed verb set. -/
def specRule3 (text : List Char) : Bool :=
  imperativeVerbs.contains (lowerLC ((pyStrip text).takeWhile (fun c => !isWS c)))

/-- Rule 4: the text contains a line break or a semicolon. -/
def specRule4 (text : List Char) : Bool :=
  text.contains '\n' || text.contains ';'

/-- Rule 5: the flag is set and the text neither ends with '?' nor begins
with a greeting token. -/
def specRule5 (text : List Char) (isBeforeFirstUser : Bool) : Bool :=
  isBeforeFirstUser && (!endsWithQmark (pyStrip text) && !startsGreeting (pyStrip text))

/-- The classifier exactly as claim C3 states it: six ordered heuristics,
first match wins, with rule 2 requiring the colon after "[SYSTEM]". -/
def classifierSpecClaim (text : List Char) (isBeforeFirstUser : Bool) : Bool :=
  specRule1 text || specRule2Claim text || specRule3 text || specRule4 text ||
  specRule5 text isBeforeFirstUser

/-- The claimed classifier with the one amendment the source forces:
rule 2 does not require a colon after "[SYSTEM]". -/
def classifierSpecAmended (text : List Char) (isBeforeFirstUser : Bool) : Bool :=
  specRule1 text || specRule2Amended text || specRule3 text || specRule4 text ||
  specRule5 text isBeforeFirstUser

/-- The Context Builder as claim C2 states it: per visited node, the
assistant entry first and then the message units in forward sentence
order, with the final reversal. -/
def get_context_specC2 (chain : List (List Char × List Char)) : List Entry :=
  (chain.foldl
    (fun ctx p => (sentenceSplit p.1).foldl classifyStep (ctx ++ [⟨Role.assistant, p.2⟩]))
    []).reverse

/-- Classification step carrying the single running `isBeforeFirstUser`
boolean of claim C1: the flag starts true and becomes (and stays) false as
soon as any unit classifies as USER. -/
def specC1Step (st : List Entry × Bool) (u : List Char) : List Entry × Bool :=
  let isSys := is_probable_system_heuristic u st.2
  (st.1 ++ [⟨if isSys then Role.system else Role.user, u⟩], st.2 && isSys)

/-- The Context Builder as claim C1 states it: identical to the source's
walk (same unit order) except that the flag passed to the classifier is the
single running boolean. -/
def get_context_specC1 (chain : List (List Char × List Char)) : List Entry :=
  (chain.foldl
    (fun (st : List Entry × Bool) p =>
      (sentenceSplit p.1).reverse.foldl specC1Step (st.1 ++ [⟨Role.assistant, p.2⟩], st.2))
    ([], true)).1.reverse

/-- The flag trace claim C1 predicts: the running boolean at each
classification, in processing order. -/
def get_context_specC1_flags (chain : List (List Char × List Char)) : List Bool :=
  (chain.foldl
    (fun (st : (List Entry × Bool) × List Bool) p =>
      (sentenceSplit p.1).reverse.foldl
        (fun st2 u => (specC1Step st2.1 u, st2.2 ++ [st2.1.2]))
        ((st.1.1 ++ [⟨Role.assistant, p.2⟩], st.1.2), st.2))
    (([], true), [])).2

/-! ### Characterization of the walk's output

`get_context` always consults the classifier with flag true (its rescan
looks only at the first collected entry, which is always the target's
assistant entry); `entryTrue` is the entry it therefore produces for a
unit, and `orderedBlocks` is the shape of the returned transcript. -/

def entryTrue (u : List Char) : Entry :=
  ⟨if is_probable_system_heuristic u true then Role.system else Role.user, u⟩

/-- The entries one node contributes to the collected (pre-reversal) list:
the assistant entry, then the units in reversed sentence order. -/
def revBlock (p : List Char × List Char) : List Entry :=
  ⟨Role.assistant, p.2⟩ :: (sentenceSplit p.1).reverse.map entryTrue

def chainBlocks : List (List Char × List Char) → List Entry
  | [] => []
  | p :: rest => revBlock p ++ chainBlocks rest

/-- The entries one node contributes to the returned transcript: the units
in forward sentence order, then the assistant entry. -/
def fwdBlock (p : List Char × List Char) : List Entry :=
  (sentenceSplit p.1).map entryTrue ++ [⟨Role.assistant, p.2⟩]

/-- The returned transcript: per node, root first, `fwdBlock`. -/
def orderedBlocks : List (List Char × List Char) → List Entry
  | [] => []
  | p :: rest => orderedBlocks rest ++ fwdBlock p

/-! ### Concrete fixtures used by the evaluation theorems and witnesses -/

/-- Target node whose one unit greets (classifies USER), with a parent whose
unit is a plain declarative sentence. -/
def c1Chain : List (List Char × List Char) :=
  [("Hello!".data, "R1".data), ("The cat sat.".data, "R2".data)]

/-- A single node whose message splits into two sentence units. -/
def c2Chain : List (List Char × List Char) :=
  [("Hello there. Hello you.".data, "Sure.".data)]

/-- A node as `main.py` produces one: `_segment_response` was called by hand,
so `response_segments` is present; `idAttr` is set by hand so that the id
lookup can succeed on this heap. -/
def segNode : PNode :=
  { message := some "Segment me.".data, response := some "alpha\nbeta".data,
    response_segments := some [⟨"alpha".data, 0, []⟩, ⟨"beta".data, 1, []⟩],
    children := some [], parent := none, idAttr := some 42 }

def segHeap : List PNode := [segNode]

def segTree : PyTree := { nodes := segHeap, root_node := some 0, node_count := 1 }

def rootedTree : PyTree := (create_root_node pyTreeNew "hello".data "world".data).1

def c6Tree : PyTree :=
  (create_root_node pyTreeNew "Tell me about Python.".data
    "Python is great.\nIt reads well.".data).1

def c9Tree : PyTree :=
  (create_root_node pyTreeNew "What is rust?".data "A language.".data).1

def c10Tree : PyTree :=
  (create_root_node pyTreeNew "Name a tree.".data "An oak.".data).1

/-! ### Helper lemmas -/

theorem dropWhile_head_not (p : Char → Bool) :
    ∀ (l : List Char) (c : Char), (l.dropWhile p).head? = some c → p c = false := by
  intro l
  induction l with
  | nil => intro c hc; simp [List.dropWhile] at hc
  | cons a l ih =>
    intro c hc
    by_cases ha : p a
    · rw [List.dropWhile_cons, if_pos ha] at hc
      exact ih c hc
    · rw [List.dropWhile_cons, if_neg ha] at hc
      simp at hc
      rw [← hc]
      exact Bool.of_not_eq_true ha

theorem pyStrip_head (t : List Char) (c : Char) (hc : (pyStrip t).head? = some c) :
    isWS c = false := by
  unfold pyStrip at hc
  have hsuf : ((t.dropWhile isWS).reverse.dropWhile isWS) <:+ (t.dropWhile isWS).reverse :=
    List.dropWhile_suffix isWS
  have hpre : ((t.dropWhile isWS).reverse.dropWhile isWS).reverse <+: t.dropWhile isWS := by
    have := (@List.reverse_prefix Char ((t.dropWhile isWS).reverse.dropWhile isWS)
      ((t.dropWhile isWS).reverse)).mpr hsuf
    rwa [List.reverse_reverse] at this
  rcases hpre with ⟨tail, htail⟩
  have : (t.dropWhile isWS).head? = some c := by
    rw [← htail, List.head?_append, hc]
    rfl
  exact dropWhile_head_not isWS t c this

/-- `pyStrip` output has no leading whitespace, so the `^\s*` skip of the
meta-tag pattern is the identity on it. -/
theorem dropWhile_pyStrip (t : List Char) : (pyStrip t).dropWhile isWS = pyStrip t := by
  cases h : pyStrip t with
  | nil => simp
  | cons c rest =>
    have hc : isWS c = false := pyStrip_head t c (by rw [h]; rfl)
    rw [List.dropWhile_cons, if_neg (by simp [hc])]

theorem contains_mem {l : List Char} {a : Char} (h : l.contains a = true) : a ∈ l := by
  rw [List.contains_eq_any_beq] at h
  rcases List.any_eq_true.mp h with ⟨x, hx, hbeq⟩
  rw [beq_iff_eq] at hbeq
  rwa [hbeq]

/-- The source's `text.count("\n") >= 1` conjunct is redundant given
`"\n" in text`. -/
theorem contains_count_redundant (l : List Char) (a : Char) :
    (l.contains a && decide (1 ≤ l.count a)) = l.contains a := by
  cases h : l.contains a with
  | false => simp
  | true =>
    have hm : a ∈ l := contains_mem h
    have : 0 < l.count a := List.count_pos_iff.mpr hm
    simp [this, hm]

theorem metaTag_eq (t : List Char) : metaTagMatch (pyStrip t) = specRule2Amended t := by
  unfold metaTagMatch specRule2Amended
  rw [dropWhile_pyStrip]

theorem firstWord_eq (t : List Char) :
    imperativeVerbs.contains (firstWordLower (pyStrip t)) = specRule3 t := by
  unfold firstWordLower specRule3
  rw [dropWhile_pyStrip]

/-- The nested if/else chain of the source equals the flat first-match-wins
composition of the six rules (with rule 2 as amended). -/
theorem classifier_eq (t : List Char) (f : Bool) :
    is_probable_system_heuristic t f = classifierSpecAmended t f := by
  have h1 : systemRegexSearch (pyStrip t) = specRule1 t := rfl
  have h4 : ((t.contains '\n' && decide (1 ≤ t.count '\n')) || t.contains ';')
      = specRule4 t := by
    unfold specRule4
    rw [contains_count_redundant]
  simp only [is_probable_system_heuristic, classifierSpecAmended, specRule5, h1,
    metaTag_eq, firstWord_eq, h4]
  cases specRule1 t <;> cases specRule2Amended t <;> cases specRule3 t <;>
    cases specRule4 t <;> cases f <;>
    simp

theorem pyStrip_of_ws (t : List Char) (hws : ∀ c ∈ t, isWS c = true) : pyStrip t = [] := by
  unfold pyStrip
  rw [List.dropWhile_eq_nil_iff.mpr hws]
  rfl

theorem foldl_classifyStep (us : List (List Char)) :
    ∀ (e : Entry) (rest : List Entry), e.role = Role.assistant →
    us.foldl classifyStep (e :: rest) = e :: rest ++ us.map entryTrue := by
  induction us with
  | nil => intro e rest he; simp
  | cons u us ih =>
    intro e rest he
    have hstep : classifyStep (e :: rest) u = e :: (rest ++ [entryTrue u]) := by
      have hbu : (!(Role.assistant == Role.user)) = true := by decide
      unfold classifyStep entryTrue
      simp [he, hbu]
    rw [List.foldl_cons, hstep, ih e (rest ++ [entryTrue u]) he]
    simp

theorem foldl_gcNodeStep (chain : List (List Char × List Char)) :
    ∀ (e : Entry) (rest : List Entry), e.role = Role.assistant →
    chain.foldl gcNodeStep (e :: rest) = e :: rest ++ chainBlocks chain := by
  induction chain with
  | nil => intro e rest he; simp [chainBlocks]
  | cons p ps ih =>
    intro e rest he
    have hstep : gcNodeStep (e :: rest) p = e :: (rest ++ revBlock p) := by
      unfold gcNodeStep revBlock
      have : (e :: rest) ++ [(⟨Role.assistant, p.2⟩ : Entry)]
          = e :: (rest ++ [(⟨Role.assistant, p.2⟩ : Entry)]) := by simp
      rw [this, foldl_classifyStep _ e _ he]
      simp
    rw [List.foldl_cons, hstep, ih e (rest ++ revBlock p) he]
    simp [chainBlocks]

theorem collect_eq (chain : List (List Char × List Char)) :
    chain.foldl gcNodeStep [] = chainBlocks chain := by
  cases chain with
  | nil => rfl
  | cons p ps =>
    have hfirst : gcNodeStep [] p = revBlock p := by
      unfold gcNodeStep revBlock
      rw [List.nil_append, show [(⟨Role.assistant, p.2⟩ : Entry)]
        = (⟨Role.assistant, p.2⟩ : Entry) :: [] from rfl,
        foldl_classifyStep _ _ _ rfl]
      simp
    rw [List.foldl_cons, hfirst]
    cases hb : revBlock p with
    | nil => simp [revBlock] at hb
    | cons e rest =>
      have he : e.role = Role.assistant := by
        unfold revBlock at hb
        injection hb with h1 h2
        rw [← h1]
      rw [foldl_gcNodeStep ps e rest he, ← hb]
      simp [chainBlocks, hb]

theorem reverse_chainBlocks (chain : List (List Char × List Char)) :
    (chainBlocks chain).reverse = orderedBlocks chain := by
  induction chain with
  | nil => rfl
  | cons p ps ih =>
    unfold chainBlocks orderedBlocks revBlock fwdBlock
    rw [List.reverse_append, ih]
    simp [List.map_reverse]

theorem buildSegments_content (L : List (List Char)) :
    ∀ i, (buildSegments L i).map PSeg.content = L := by
  induction L with
  | nil => intro i; rfl
  | cons s rest ih => intro i; simp [buildSegments, ih]

theorem buildSegments_index (L : List (List Char)) :
    ∀ i, (buildSegments L i).map PSeg.index = List.range' i L.length := by
  induction L with
  | nil => intro i; rfl
  | cons s rest ih =>
    intro i
    simp only [buildSegments, List.map_cons, List.length_cons, List.range'_succ, ih]

theorem buildSegments_children (L : List (List Char)) :
    ∀ i, ((buildSegments L i).all fun sg => sg.children.isEmpty) = true := by
  induction L with
  | nil => intro i; rfl
  | cons s rest ih => intro i; simp [buildSegments, ih]

/-! ### The claims -/

/-- Claim C1 (code_bug evidence).  The claim says the `isBeforeFirstUser`
argument is a single running boolean that turns false once any unit
classifies as USER.  In the source the flag is recomputed from only the
first collected entry — always the target's assistant entry — so it is
passed as true for every unit.  On `c1Chain` the first-processed unit
"Hello!" classifies USER, yet the next unit "The cat sat." is still
classified with flag true and so becomes SYSTEM; the claimed running-flag
behavior (`get_context_specC1`) would pass false and classify it USER. -/
theorem claim_C1_observed :
    get_context c1Chain =
      [⟨Role.system, "The cat sat.".data⟩, ⟨Role.assistant, "R2".data⟩,
       ⟨Role.user, "Hello!".data⟩, ⟨Role.assistant, "R1".data⟩]
    ∧ get_context_flags c1Chain = [true, true]
    ∧ get_context_specC1_flags c1Chain = [true, false]
    ∧ get_context_specC1 c1Chain =
      [⟨Role.user, "The cat sat.".data⟩, ⟨Role.assistant, "R2".data⟩,
       ⟨Role.user, "Hello!".data⟩, ⟨Role.assistant, "R1".data⟩] := by
  refine ⟨by decide, by decide, by decide, by decide⟩

/-- Claim C2, counterexample.  The claim says each visited node emits its
assistant entry and then its message units in forward sentence order before
the final reversal.  On a node whose message has two sentence units the
source (which iterates `reversed(line)`) returns a different transcript than
the claimed forward-order builder `get_context_specC2`. -/
theorem claim_C2_counterexample : get_context c2Chain ≠ get_context_specC2 c2Chain := by
  decide

/-- Claim C2 as amended: per visited node the walk emits the assistant entry
and then the message units in reverse sentence order, so after the final
reversal the transcript lists, per node from root to target, the units in
forward sentence order followed by that node's assistant entry. -/
theorem claim_C2_amended (chain : List (List Char × List Char)) :
    get_context chain = orderedBlocks chain := by
  unfold get_context
  rw [collect_eq, reverse_chainBlocks]

/-- Claim C3, counterexample.  The claim requires a colon in the meta-tag
`[SYSTEM]:`; the source's pattern `\[SYSTEM\]` does not.  On the text
`"[SYSTEM] welcome aboard"` with flag false the source returns SYSTEM while
the claimed rules (`classifierSpecClaim`) return USER. -/
theorem claim_C3_counterexample :
    ¬ (∀ (text : List Char) (flag : Bool),
        is_probable_system_heuristic text flag = classifierSpecClaim text flag) :=
  fun hyp => absurd (hyp "[SYSTEM] welcome aboard".data false) (by decide)

/-- Claim C3 as amended: the classifier is exactly the six ordered
first-match-wins heuristics with rule 2 requiring `[SYSTEM]` (no colon),
and the four quoted scenarios classify as stated for either flag value. -/
theorem claim_C3_amended :
    (∀ (text : List Char) (flag : Bool),
      is_probable_system_heuristic text flag = classifierSpecAmended text flag)
    ∧ (∀ flag, is_probable_system_heuristic "You are a helpful assistant.".data flag = true)
    ∧ (∀ flag, is_probable_system_heuristic "Hi, how are you?".data flag = false)
    ∧ (∀ flag, is_probable_system_heuristic "Validate the input.".data flag = true)
    ∧ (∀ flag, is_probable_system_heuristic "What's the weather; is it raining?".data flag = true) := by
  refine ⟨classifier_eq, ?_, ?_, ?_, ?_⟩ <;> intro flag <;> cases flag <;> decide

/-- Claim C4, counterexample.  The claim says whitespace-only text (line
breaks included) never matches rules 1-4 and so classifies USER whenever the
flag is false.  The text `"\n"` is whitespace-only, yet rule 4 inspects the
unstripped text, finds the line break and returns SYSTEM with flag false. -/
theorem claim_C4_counterexample :
    ¬ (∀ (t : List Char) (f : Bool), (∀ c ∈ t, isWS c = true) →
        is_probable_system_heuristic t f = f) :=
  fun hyp => absurd (hyp "\n".data false (by decide)) (by decide)

/-- Claim C4 as amended: empty or whitespace-only text never matches rules
1-3; rule 4 still fires exactly when the text contains a line break, so the
classifier returns SYSTEM iff the flag is true or the text contains a line
break. -/
theorem claim_C4_amended (t : List Char) (f : Bool) (hws : ∀ c ∈ t, isWS c = true) :
    is_probable_system_heuristic t f = (f || t.contains '\n') := by
  have hstrip : pyStrip t = [] := pyStrip_of_ws t hws
  have hsemi : t.contains ';' = false := by
    cases hc : t.contains ';' with
    | false => rfl
    | true =>
      have := hws ';' (contains_mem hc)
      simp [isWS] at this
  have h1 : systemRegexSearch [] = false := by decide
  have h2 : metaTagMatch [] = false := by decide
  have h3 : imperativeVerbs.contains (firstWordLower []) = false := by decide
  simp only [is_probable_system_heuristic, hstrip, h1, h2, h3, hsemi]
  have hq : endsWithQmark [] = false := by decide
  have hg : startsGreeting [] = false := by decide
  cases hn : t.contains '\n' with
  | false => cases f <;> simp [hq, hg]
  | true =>
    have hmem : '\n' ∈ t := contains_mem hn
    have hcnt : 0 < t.count '\n' := List.count_pos_iff.mpr hmem
    cases f <;> simp [hcnt, hmem, hq, hg]

/-- Claim C4 witness: the amended theorem applied at the whitespace-only
text `" \t"` (no line break) with flag false. -/
theorem claim_C4_witness :
    (∀ c ∈ (" \t".data), isWS c = true)
    ∧ is_probable_system_heuristic " \t".data false = (false || (" \t".data).contains '\n') :=
  ⟨by decide, claim_C4_amended " \t".data false (by decide)⟩

/-- Claim C5 (confirmed): segmentation returns exactly the trimmed non-blank
lines in original order, with indices exactly `0..k-1` and every segment's
children empty; it is a pure function of the response, so recomputation is
trivially identical, and a response with no non-blank line yields `[]`. -/
theorem claim_C5_theorem (r : List Char) :
    (segment_response r).map PSeg.content = ((splitNL r).map pyStrip).filter (fun s => !s.isEmpty)
    ∧ (segment_response r).map PSeg.index =
        List.range (((splitNL r).map pyStrip).filter (fun s => !s.isEmpty)).length
    ∧ ((segment_response r).all fun sg => sg.children.isEmpty) = true := by
  unfold segment_response
  refine ⟨buildSegments_content _ 0, ?_, buildSegments_children _ 0⟩
  rw [buildSegments_index, List.range_eq_range']

/-- Claim C6 (code_bug evidence).  The claim says every node-creating
operation leaves `segments = segment(response)`.  In the source `Node` is
not a dataclass, so `__post_init__` never runs and plain assignment of
`response` triggers nothing: the root made by `create_root_node` and the
child made by `add_segment_specific_child` both end with no
`response_segments` attribute at all, although the Segmentation Engine on
their responses yields non-empty segment lists. -/
theorem claim_C6_observed :
    (c6Tree.nodes.getD 0 pyNodeNew).response_segments = none
    ∧ segment_response "Python is great.\nIt reads well.".data =
        [⟨"Python is great.".data, 0, []⟩, ⟨"It reads well.".data, 1, []⟩]
    ∧ ((node_add_segment_specific_child segHeap 0 0 "why".data
          "It works.\nYes.".data).1.getD 1 pyNodeNew).response_segments = none
    ∧ segment_response "It works.\nYes.".data =
        [⟨"It works.".data, 0, []⟩, ⟨"Yes.".data, 1, []⟩] := by
  refine ⟨by decide, by decide, by decide, by decide⟩

/-- Claim C7 (confirmed): on a parent whose `response_segments` attribute is
present, `add_segment_specific_child` raises exactly when the index is
outside `[0, segmentCount)` and then mutates nothing; in range it appends a
fresh node (parent back-reference set) to that segment's children and
returns it; and the Tree wrapper turns the raised `IndexError` into a `None`
result leaving the tree — its node count included — unchanged. -/
theorem claim_C7_theorem (h : List PNode) (s : Nat) (i : Int) (m r : List Char) (segs : List PSeg)
    (hseg : (h.getD s pyNodeNew).response_segments = some segs) :
    ((i < 0 ∨ (segs.length : Int) ≤ i) →
      node_add_segment_specific_child h s i m r = (h, Except.error PyErr.indexError))
    ∧ (0 ≤ i → i < (segs.length : Int) →
      (node_add_segment_specific_child h s i m r).2 = Except.ok h.length
      ∧ (node_add_segment_specific_child h s i m r).1.length = h.length + 1
      ∧ (node_add_segment_specific_child h s i m r).1.getD h.length pyNodeNew =
          { message := some m, response := some r, response_segments := none,
            children := none, parent := some s, idAttr := none }
      ∧ (node_add_segment_specific_child h s i m r).1.getD s pyNodeNew =
          { h.getD s pyNodeNew with response_segments := some (segs.set i.toNat
              ⟨(segs.getD i.toNat ⟨[], 0, []⟩).content, (segs.getD i.toNat ⟨[], 0, []⟩).index,
               (segs.getD i.toNat ⟨[], 0, []⟩).children ++ [h.length]⟩) })
    ∧ (∀ (t : PyTree) (pid : Nat), t.nodes = h →
        find_node_by_id t pid = Except.ok (some s) →
        (i < 0 ∨ (segs.length : Int) ≤ i) →
        tree_add_segment_specific_child t pid i m r = (t, Except.ok none)) := by
  have hs : s < h.length := by
    by_contra hle
    push_neg at hle
    rw [List.getD_eq_getElem?_getD, List.getElem?_eq_none hle] at hseg
    simp [pyNodeNew] at hseg
  have herr : (i < 0 ∨ (segs.length : Int) ≤ i) →
      node_add_segment_specific_child h s i m r = (h, Except.error PyErr.indexError) := by
    intro hout
    simp only [node_add_segment_specific_child, hseg]
    rw [if_neg (by omega)]
  refine ⟨herr, ?_, ?_⟩
  · intro h0 h1
    simp only [node_add_segment_specific_child, hseg]
    rw [if_pos ⟨h0, h1⟩]
    refine ⟨rfl, ?_, ?_, ?_⟩
    · simp [List.length_append, List.length_set]
    · rw [List.getD_eq_getElem?_getD,
        List.getElem?_append_right (by simp [List.length_set])]
      simp [List.length_set]
    · rw [List.getD_eq_getElem?_getD,
        List.getElem?_append_left (by simp [List.length_set]; omega),
        List.getElem?_set_self (by omega)]
      rfl
  · intro t pid ht hfind hout
    subst ht
    simp only [tree_add_segment_specific_child, hfind]
    rw [herr hout]

/-- Claim C7 witness: the theorem applied on the concrete heap `segHeap`
(one node, two segments): index 5 raises and mutates nothing, index 1
succeeds returning the new node id, and the Tree wrapper maps the raise on
index 5 to a `None` result with the tree unchanged. -/
theorem claim_C7_witness :
    node_add_segment_specific_child segHeap 0 5 "q".data "s".data
      = (segHeap, Except.error PyErr.indexError)
    ∧ (node_add_segment_specific_child segHeap 0 1 "q".data "s".data).2 = Except.ok 1
    ∧ tree_add_segment_specific_child segTree 42 5 "q".data "s".data
      = (segTree, Except.ok none) := by
  refine ⟨?_, ?_, ?_⟩
  · exact (claim_C7_theorem segHeap 0 5 "q".data "s".data
      [⟨"alpha".data, 0, []⟩, ⟨"beta".data, 1, []⟩] (by decide)).1 (by decide)
  · exact ((claim_C7_theorem segHeap 0 1 "q".data "s".data
      [⟨"alpha".data, 0, []⟩, ⟨"beta".data, 1, []⟩] (by decide)).2.1 (by decide) (by decide)).1
  · exact (claim_C7_theorem segHeap 0 5 "q".data "s".data
      [⟨"alpha".data, 0, []⟩, ⟨"beta".data, 1, []⟩] (by decide)).2.2 segTree 42 rfl
      (by decide) (by decide)

/-- Claim C8 (confirmed): creating a root on a tree that already has one
fails with the RootAlreadyExists error (`ValueError`) and returns the tree
unchanged; on a tree with no root it creates and returns a node whose
`parent` is absent, and on a fresh tree the resulting node arena holds
exactly one parentless node. -/
theorem claim_C8_theorem (t : PyTree) (m r : List Char) :
    (∀ j, t.root_node = some j →
      create_root_node t m r = (t, Except.error PyErr.valueError))
    ∧ (t.root_node = none →
      (create_root_node t m r).2 = Except.ok t.nodes.length
      ∧ (create_root_node t m r).1.root_node = some t.nodes.length
      ∧ ((create_root_node t m r).1.nodes.getD t.nodes.length pyNodeNew).parent = none
      ∧ (t.nodes = [] →
          (create_root_node t m r).1.nodes.countP (fun n => n.parent == none) = 1)) := by
  constructor
  · intro j hj
    simp only [create_root_node, hj]
  · intro hn
    refine ⟨?_, ?_, ?_, ?_⟩
    · simp only [create_root_node, hn]
    · simp only [create_root_node, hn]
    · simp only [create_root_node, hn]
      rw [List.getD_eq_getElem?_getD, List.getElem?_append_right (le_refl _)]
      simp
    · intro hnil
      simp only [create_root_node, hn, hnil]
      simp [List.countP_cons, List.countP_nil]

/-- Claim C8 witness: the theorem applied to `rootedTree` (which has a root)
and to the fresh `pyTreeNew`. -/
theorem claim_C8_witness :
    create_root_node rootedTree "x".data "y".data = (rootedTree, Except.error PyErr.valueError)
    ∧ (create_root_node pyTreeNew "x".data "y".data).1.nodes.countP
        (fun n => n.parent == none) = 1 :=
  ⟨(claim_C8_theorem rootedTree "x".data "y".data).1 0 rfl,
   ((claim_C8_theorem pyTreeNew "x".data "y".data).2 rfl).2.2.2 rfl⟩

/-- Claim C9 (code_bug evidence).  The claim says findById returns the node
for any id present (general or segment-scoped) and an absent value for
unknown ids, and that the full listing contains every node.  On any tree
with a root the source raises `AttributeError` instead: nodes never receive
an `_id` (the dataclass initializer never runs) and their `children`
attribute is never assigned, so the recursive search and the listing both
fail at the root; only the empty tree yields the documented absent value. -/
theorem claim_C9_observed :
    find_node_by_id c9Tree 0 = Except.error PyErr.attributeError
    ∧ get_all_nodes c9Tree = Except.error PyErr.attributeError
    ∧ find_node_by_id pyTreeNew 0 = Except.ok none := by
  refine ⟨by decide, by decide, by decide⟩

/-- Claim C10 (code_bug evidence).  The claim says the path query returns
the empty sequence for an id matching no node and a root-to-node path
otherwise.  On any tree with a root the underlying id search raises
`AttributeError` (see C9), so the path query fails rather than returning a
sequence; only on an empty tree does it return `[]`. -/
theorem claim_C10_observed :
    get_conversation_path c10Tree 3 = Except.error PyErr.attributeError
    ∧ get_conversation_path pyTreeNew 3 = Except.ok [] := by
  refine ⟨by decide, by decide⟩

end IV3
